import Mathlib

/-!
Shallow embedding of the `validity-sens` USB driver core
(`src/driver/src/lib.rs` and `src/driver/src/usb.rs`).

The underlying USB transport (rusb) is external: it is modelled as a state
machine `Transport σ` supplying the primitives the driver calls
(`write_bulk`, `read_bulk`, `reset`), each returning a result together with
the successor state of the external world.  Machine integers (`u8`, `u16`)
are `Nat` with explicit `% 2^w` where overflow matters; fallible calls
return `Except`.
-/

namespace ValiditySens

/-- Opaque platform USB error (`rusb::Error`); only its identity matters. -/
structure RusbError where
  code : Nat
deriving DecidableEq, Repr

/-- `core::time::Duration`, restricted to whole seconds (all the driver uses). -/
structure Duration where
  secs : Nat
deriving DecidableEq, Repr

/-- `Duration::from_secs`. -/
def Duration.from_secs (n : Nat) : Duration := ⟨n⟩

/-- Result of `device_descriptor()`: the identity fields the driver reads. -/
structure DeviceDescriptor where
  vendor_id : Nat
  product_id : Nat
deriving DecidableEq, Repr

/-- One enumerated device reference: its bus number, address, and the
(pre-determined) outcome of querying its descriptor. -/
structure Device where
  bus_number : Nat
  address : Nat
  descriptor : Except RusbError DeviceDescriptor
deriving Repr

/-- `DriverError` from `src/driver/src/lib.rs`. -/
inductive DriverError where
  | ListDevices (e : RusbError)
  | DeviceDescription (e : RusbError)
  | GetDeviceNotFound
  | GetDeviceFoundUnsupported
  | OpenDevice (e : RusbError)
  | UsbWrite (e : RusbError)
  | UsbWritePartial
  | UsbReadResponse (e : RusbError)
  | UsbReset (e : RusbError)
  | UsbInitInvalid
  | UsbInitFailed (code : Nat)
  | UsbInitSignatureFailed (code : Nat)
deriving DecidableEq, Repr

/-- `SUPPORTED`: the supported (vendor, product) identity table. -/
def SUPPORTED : List (Nat × Nat) := [(0x138a, 0x0097)]

/-- The inner loop of both matchers: `desc.vendor_id() == *vid &&
desc.product_id() == *pid` for some table entry (the `break` after a match
makes the loop equivalent to an existence check over the table). -/
def matchesSupported (desc : DeviceDescriptor) : Bool :=
  SUPPORTED.any fun p => desc.vendor_id == p.1 && desc.product_id == p.2

/-- Loop body of `list_supported_devices`: walk the devices in enumeration
order, read each descriptor (aborting on the first failure), and push the
matching devices onto the accumulator. -/
def list_supported_loop (acc : List Device) : List Device → Except DriverError (List Device)
  | [] => .ok acc
  | dev :: rest =>
    match dev.descriptor with
    | .error e => .error (DriverError.DeviceDescription e)
    | .ok desc =>
      if matchesSupported desc then
        list_supported_loop (acc ++ [dev]) rest
      else
        list_supported_loop acc rest

/-- `list_supported_devices` from `src/driver/src/lib.rs`, as a function of
the outcome of `rusb::devices()`. -/
def list_supported_devices (enum : Except RusbError (List Device)) :
    Except DriverError (List Device) :=
  match enum with
  | .error e => .error (DriverError.ListDevices e)
  | .ok devs => list_supported_loop [] devs

/-- Loop body of `get_device`: skip devices at a different (bus, address);
at the first device matching both, read its descriptor and either return it
(supported) or fail with `GetDeviceFoundUnsupported` — the loop never
continues past a (bus, address) match. -/
def get_device_loop (busnum addr : Nat) : List Device → Except DriverError Device
  | [] => .error DriverError.GetDeviceNotFound
  | dev :: rest =>
    if dev.bus_number != busnum || dev.address != addr then
      get_device_loop busnum addr rest
    else
      match dev.descriptor with
      | .error e => .error (DriverError.DeviceDescription e)
      | .ok desc =>
        if matchesSupported desc then .ok dev
        else .error DriverError.GetDeviceFoundUnsupported

/-- `get_device` from `src/driver/src/lib.rs`, as a function of the outcome
of `rusb::devices()`. -/
def get_device (enum : Except RusbError (List Device)) (busnum addr : Nat) :
    Except DriverError Device :=
  match enum with
  | .error e => .error (DriverError.ListDevices e)
  | .ok devs => get_device_loop busnum addr devs

/-- The external USB transport behind a `DeviceHandle`, as a state machine
over an abstract world state `σ`.  `write_bulk` takes the endpoint, the
data and the timeout and reports the number of bytes written; `read_bulk`
takes the endpoint, the capacity of the destination buffer and the timeout
and yields the bytes it stored into the buffer. -/
structure Transport (σ : Type) where
  write_bulk : σ → Nat → List Nat → Duration → Except RusbError Nat × σ
  read_bulk : σ → Nat → Nat → Duration → Except RusbError (List Nat) × σ
  reset : σ → Except RusbError Unit × σ

/-- `OpenedUsbDevice` from `src/driver/src/usb.rs`: the live handle (world
state), the `reset_called` flag and the default timeout. -/
structure OpenedUsbDevice (σ : Type) where
  hnd : σ
  reset_called : Bool
  default_timeout : Duration

/-- `UsbDevice::open`, as a function of the outcome of `self.0.open()`:
a fresh session has `reset_called = false` and a 1-second timeout. -/
def UsbDevice.open {σ : Type} (res : Except RusbError σ) :
    Except DriverError (OpenedUsbDevice σ) :=
  match res with
  | .error e => .error (DriverError.OpenDevice e)
  | .ok h => .ok ⟨h, false, Duration.from_secs 1⟩

namespace OpenedUsbDevice

/-- `OpenedUsbDevice::cmd`: write `data` to bulk endpoint 1 with the default
timeout; if fewer bytes than `data.len()` were written fail with
`UsbWritePartial` without reading; otherwise read into a buffer of capacity
`cap` from bulk endpoint 129 and return the read length together with the
bytes stored in the buffer.  The updated session carries the successor
world state; the Rust receiver is `&self`, so the driver-visible fields are
untouched. -/
def cmd {σ : Type} (T : Transport σ) (self : OpenedUsbDevice σ) (data : List Nat)
    (cap : Nat) : Except DriverError (Nat × List Nat) × OpenedUsbDevice σ :=
  match T.write_bulk self.hnd 1 data self.default_timeout with
  | (.error e, h1) => (.error (DriverError.UsbWrite e), { self with hnd := h1 })
  | (.ok wrlen, h1) =>
    if data.length != wrlen then
      (.error DriverError.UsbWritePartial, { self with hnd := h1 })
    else
      match T.read_bulk h1 129 cap self.default_timeout with
      | (.error e, h2) => (.error (DriverError.UsbReadResponse e), { self with hnd := h2 })
      | (.ok bytes, h2) => (.ok (bytes.length, bytes), { self with hnd := h2 })

/-- `u16::from_le_bytes` on the two-byte prefix of a response buffer; bytes
are `u8`, hence the explicit `% 256`. -/
def u16_from_le_bytes (bs : List Nat) : Nat :=
  match bs with
  | b0 :: b1 :: _ => b0 % 256 + 256 * (b1 % 256)
  | _ => 0

/-- `OpenedUsbDevice::run_and_check`: run `cmd`, require at least 2 response
bytes, decode the little-endian `u16` status from the first two bytes, and
map `0x044f` to `UsbInitSignatureFailed`, any other nonzero status to
`UsbInitFailed`, status 0 to success returning the read length. -/
def run_and_check {σ : Type} (T : Transport σ) (self : OpenedUsbDevice σ)
    (c : List Nat) (cap : Nat) : Except DriverError Nat × OpenedUsbDevice σ :=
  match self.cmd T c cap with
  | (.error e, s1) => (.error e, s1)
  | (.ok (res, out), s1) =>
    let resp := out.take res
    if resp.length < 2 then
      (.error DriverError.UsbInitInvalid, s1)
    else
      let shrt := u16_from_le_bytes (resp.take 2)
      if shrt != 0 && shrt == 0x44f then
        (.error (DriverError.UsbInitSignatureFailed shrt), s1)
      else if shrt != 0 then
        (.error (DriverError.UsbInitFailed shrt), s1)
      else
        (.ok res, s1)

/-- `OpenedUsbDevice::send_init`: run `[0x01]` then `[0x19]` through
`run_and_check` against a shared 1024-byte buffer, stopping at the first
failure. -/
def send_init {σ : Type} (T : Transport σ) (self : OpenedUsbDevice σ) :
    Except DriverError Unit × OpenedUsbDevice σ :=
  match self.run_and_check T [0x01] 1024 with
  | (.error e, s1) => (.error e, s1)
  | (.ok _, s1) =>
    match s1.run_and_check T [0x19] 1024 with
    | (.error e, s2) => (.error e, s2)
    | (.ok _, s2) => (.ok (), s2)

/-- `OpenedUsbDevice::reset`: a no-op success when `reset_called` is already
true; otherwise invoke the transport reset, and on success record
`reset_called := true`. -/
def reset {σ : Type} (T : Transport σ) (self : OpenedUsbDevice σ) :
    Except DriverError Unit × OpenedUsbDevice σ :=
  if self.reset_called then
    (.ok (), self)
  else
    match T.reset self.hnd with
    | (.error e, h1) => (.error (DriverError.UsbReset e), { self with hnd := h1 })
    | (.ok _, h1) => (.ok (), { self with hnd := h1, reset_called := true })

end OpenedUsbDevice

/-- Outcome of dropping a session: either the reset attempt succeeded and the
underlying connection resource (the final world state) is released, or the
`expect` in `Drop::drop` aborted the program. -/
inductive DropResult (σ : Type) where
  | released (h : σ)
  | panicked

/-- `impl Drop for OpenedUsbDevice`: call `reset()` and abort abnormally
(`expect`) if it fails; otherwise the handle is released. -/
def OpenedUsbDevice.drop {σ : Type} (T : Transport σ) (self : OpenedUsbDevice σ) :
    DropResult σ :=
  match self.reset T with
  | (.ok _, s1) => .released s1.hnd
  | (.error _, _) => .panicked

/-- One observable call to the transport, for instrumentation. -/
inductive TransportEvent where
  | write (endpoint : Nat) (data : List Nat) (timeout : Duration)
  | read (endpoint : Nat) (cap : Nat) (timeout : Duration)
  | reset
deriving DecidableEq, Repr

/-- Wrap a transport so that the world state also records the list of calls
made to it, in order.  The driver code is polymorphic in the world state, so
its behaviour on the traced transport measures exactly the transport calls
it performs. -/
def traced {σ : Type} (T : Transport σ) : Transport (σ × List TransportEvent) where
  write_bulk := fun s ep data t =>
    let r := T.write_bulk s.1 ep data t
    (r.1, (r.2, s.2 ++ [TransportEvent.write ep data t]))
  read_bulk := fun s ep cap t =>
    let r := T.read_bulk s.1 ep cap t
    (r.1, (r.2, s.2 ++ [TransportEvent.read ep cap t]))
  reset := fun s =>
    let r := T.reset s.1
    (r.1, (r.2, s.2 ++ [TransportEvent.reset]))

/-- View a session over world state `σ` as a session over the traced world,
starting from trace `tr`. -/
def liftTraced {σ : Type} (self : OpenedUsbDevice σ) (tr : List TransportEvent) :
    OpenedUsbDevice (σ × List TransportEvent) :=
  ⟨(self.hnd, tr), self.reset_called, self.default_timeout⟩

/-- Spec-side selection predicate: a device whose descriptor reads
successfully and whose identity matches the supported table. -/
def deviceSupported (d : Device) : Bool :=
  match d.descriptor with
  | .ok desc => matchesSupported desc
  | .error _ => false

/-- A concrete supported device (the sensor identity), for witnesses. -/
def devA : Device := ⟨3, 7, .ok ⟨0x138a, 0x0097⟩⟩

/-- A concrete unsupported device (vendor mismatch), for witnesses. -/
def devB : Device := ⟨1, 2, .ok ⟨0x1234, 0x0097⟩⟩

/-- One session operation, for stating properties of arbitrary operation
sequences on a live session. -/
inductive SessionOp where
  | cmdOp (data : List Nat) (cap : Nat)
  | runOp (c : List Nat) (cap : Nat)
  | initOp
  | resetOp
deriving DecidableEq, Repr

/-- Run one session operation, keeping only the successor session state. -/
def applyOp {σ : Type} (T : Transport σ) (s : OpenedUsbDevice σ) :
    SessionOp → OpenedUsbDevice σ
  | .cmdOp data cap => (s.cmd T data cap).2
  | .runOp c cap => (s.run_and_check T c cap).2
  | .initOp => (s.send_init T).2
  | .resetOp => (s.reset T).2

/-- Run a sequence of session operations in order. -/
def applyOps {σ : Type} (T : Transport σ) (s : OpenedUsbDevice σ) :
    List SessionOp → OpenedUsbDevice σ
  | [] => s
  | op :: ops => applyOps T (applyOp T s op) ops

/-- Number of transport-level reset calls recorded in a trace. -/
def countResets (tr : List TransportEvent) : Nat :=
  (tr.filter fun ev => decide (ev = TransportEvent.reset)).length

/-- A transport over a trivial world whose writes report the full length,
whose reads always yield `resp`, and whose reset succeeds. -/
def okTransport (resp : List Nat) : Transport Unit where
  write_bulk := fun s _ data _ => (.ok data.length, s)
  read_bulk := fun s _ _ _ => (.ok resp, s)
  reset := fun s => (.ok (), s)

/-- A transport whose world counts the reads performed so far and whose
n-th read yields the n-th scripted response. -/
def scriptTransport (resps : List (List Nat)) : Transport Nat where
  write_bulk := fun n _ data _ => (.ok data.length, n)
  read_bulk := fun n _ _ _ => (.ok (resps.getD n []), n + 1)
  reset := fun n => (.ok (), n)

/-- A transport whose writes report only `wrlen` bytes written. -/
def shortWriteTransport (wrlen : Nat) : Transport Unit where
  write_bulk := fun s _ _ _ => (.ok wrlen, s)
  read_bulk := fun s _ _ _ => (.ok [], s)
  reset := fun s => (.ok (), s)

/-- A transport whose device reset always fails. -/
def failResetTransport : Transport Unit where
  write_bulk := fun s _ data _ => (.ok data.length, s)
  read_bulk := fun s _ _ _ => (.ok [], s)
  reset := fun s => (.error ⟨5⟩, s)

/-- When every descriptor reads successfully, the scan loop keeps exactly the
supported devices, appended to the accumulator in enumeration order. -/
theorem list_supported_loop_ok (devs : List Device) :
    (∀ d ∈ devs, ∃ desc, d.descriptor = .ok desc) → ∀ acc : List Device,
    list_supported_loop acc devs = .ok (acc ++ devs.filter deviceSupported) := by
  induction devs with
  | nil => intro _ acc; simp [list_supported_loop]
  | cons dev rest ih =>
    intro h acc
    obtain ⟨desc0, hdesc0⟩ := h dev (by simp)
    have hrest : ∀ d ∈ rest, ∃ desc, d.descriptor = .ok desc :=
      fun d hm => h d (List.mem_cons_of_mem _ hm)
    cases hm : matchesSupported desc0 with
    | true =>
      simp [list_supported_loop, hdesc0, hm, ih hrest, List.filter_cons,
        deviceSupported]
    | false =>
      simp [list_supported_loop, hdesc0, hm, ih hrest, List.filter_cons,
        deviceSupported]

/-- If any descriptor read fails, the scan loop fails with a
`DeviceDescription` error. -/
theorem list_supported_loop_err (devs : List Device) :
    (∃ d ∈ devs, ∃ e, d.descriptor = .error e) → ∀ acc : List Device,
    ∃ e, list_supported_loop acc devs = .error (DriverError.DeviceDescription e) := by
  induction devs with
  | nil => intro h; simp at h
  | cons dev rest ih =>
    intro h acc
    rcases hdesc : dev.descriptor with e | desc
    · exact ⟨e, by simp [list_supported_loop, hdesc]⟩
    · obtain ⟨d, hmem, e, hde⟩ := h
      rcases List.mem_cons.mp hmem with rfl | hmem
      · rw [hdesc] at hde
        cases hde
      · have htail : ∃ d ∈ rest, ∃ e, d.descriptor = .error e := ⟨d, hmem, e, hde⟩
        cases hm : matchesSupported desc with
        | true => simpa [list_supported_loop, hdesc, hm] using ih htail _
        | false => simpa [list_supported_loop, hdesc, hm] using ih htail _

/-- C2: `list_supported_devices` returns exactly the enumerated devices whose
(vendor, product) pair matches a supported-table entry on both fields, in
enumeration order; matching is existence of a table entry equal on both
fields; and if any descriptor read fails the whole call fails with
`DeviceDescription` instead of skipping. -/
theorem list_supported_devices_spec (devs : List Device) :
    ((∀ d ∈ devs, ∃ desc, d.descriptor = .ok desc) →
       list_supported_devices (.ok devs) = .ok (devs.filter deviceSupported))
  ∧ (∀ desc, matchesSupported desc = true ↔
       ∃ p ∈ SUPPORTED, desc.vendor_id = p.1 ∧ desc.product_id = p.2)
  ∧ ((∃ d ∈ devs, ∃ e, d.descriptor = .error e) →
       ∃ e, list_supported_devices (.ok devs) = .error (DriverError.DeviceDescription e)) := by
  refine ⟨?_, ?_, ?_⟩
  · intro h
    simpa [list_supported_devices] using list_supported_loop_ok devs h []
  · intro desc
    simp [matchesSupported, List.any_eq_true]
  · intro h
    simpa [list_supported_devices] using list_supported_loop_err devs h []

/-- Witness for C2: on a two-device bus with one supported and one
unsupported device, the scan keeps exactly the supported one. -/
theorem list_supported_devices_spec_witness :
    list_supported_devices (.ok [devA, devB]) = .ok ([devA, devB].filter deviceSupported) :=
  (list_supported_devices_spec [devA, devB]).1 (by
    intro d hd
    rcases List.mem_cons.mp hd with rfl | hd
    · exact ⟨⟨0x138a, 0x0097⟩, rfl⟩
    · rcases List.mem_cons.mp hd with rfl | hd
      · exact ⟨⟨0x1234, 0x0097⟩, rfl⟩
      · cases hd)

/-- The loop of `get_device` is decided by the first device at the requested
(bus, address), found in enumeration order. -/
theorem get_device_loop_eq (b a : Nat) (devs : List Device) :
    get_device_loop b a devs =
      match devs.find? (fun d => d.bus_number == b && d.address == a) with
      | none => .error DriverError.GetDeviceNotFound
      | some dev =>
        match dev.descriptor with
        | .error e => .error (DriverError.DeviceDescription e)
        | .ok desc =>
          if matchesSupported desc then .ok dev
          else .error DriverError.GetDeviceFoundUnsupported := by
  induction devs with
  | nil => rfl
  | cons dev rest ih =>
    cases hb : (dev.bus_number == b && dev.address == a) with
    | true =>
      have hguard : (dev.bus_number != b || dev.address != a) = false := by
        obtain ⟨h1, h2⟩ := Bool.and_eq_true _ _ |>.mp hb
        simp [bne, h1, h2]
      simp [get_device_loop, List.find?, hb, hguard]
    | false =>
      have hguard : (dev.bus_number != b || dev.address != a) = true := by
        cases h1 : dev.bus_number == b with
        | false => simp [bne, h1]
        | true =>
          cases h2 : dev.address == a with
          | false => simp [bne, h2]
          | true => simp [h1, h2] at hb
      simp only [get_device_loop, List.find?, hb, hguard, if_true]
      exact ih

/-- C1: `get_device` has exactly three outcomes — no device at (bus, address)
yields `GetDeviceNotFound`; a first device there whose identity is not in the
supported table yields `GetDeviceFoundUnsupported` (scanning stops at that
device); a supported first device is returned.  Success never occurs for an
unsupported device. -/
theorem get_device_trichotomy (devs : List Device) (b a : Nat) :
    (devs.find? (fun d => d.bus_number == b && d.address == a) = none →
       get_device (.ok devs) b a = .error DriverError.GetDeviceNotFound)
  ∧ (∀ dev desc,
       devs.find? (fun d => d.bus_number == b && d.address == a) = some dev →
       dev.descriptor = .ok desc →
         (matchesSupported desc = true → get_device (.ok devs) b a = .ok dev)
       ∧ (matchesSupported desc = false →
            get_device (.ok devs) b a = .error DriverError.GetDeviceFoundUnsupported))
  ∧ (∀ enum dev, get_device enum b a = .ok dev →
       ∃ desc, dev.descriptor = .ok desc ∧ matchesSupported desc = true) := by
  refine ⟨?_, ?_, ?_⟩
  · intro hnone
    simp [get_device, get_device_loop_eq, hnone]
  · intro dev desc hfind hdesc
    constructor
    · intro hm
      simp [get_device, get_device_loop_eq, hfind, hdesc, hm]
    · intro hm
      simp [get_device, get_device_loop_eq, hfind, hdesc, hm]
  · intro enum dev hok
    cases enum with
    | error e => simp [get_device] at hok
    | ok devs2 => ?_
    rw [get_device] at hok
    rw [get_device_loop_eq] at hok
    split at hok
    · exact absurd hok (by simp)
    · rename_i d hfind
      split at hok
      · exact absurd hok (by simp)
      · rename_i desc hdesc
        by_cases hm : matchesSupported desc = true
        · rw [if_pos hm] at hok
          cases hok
          exact ⟨desc, hdesc, hm⟩
        · rw [if_neg hm] at hok
          simp at hok

/-- Witness for C1: on a bus holding exactly the supported device at
(3, 7), `get_device 3 7` returns it. -/
theorem get_device_trichotomy_witness :
    get_device (.ok [devA]) 3 7 = .ok devA :=
  ((get_device_trichotomy [devA] 3 7).2.1 devA ⟨0x138a, 0x0097⟩ rfl rfl).1 rfl

/-- `cmd` only updates the world handle: the driver-visible session fields
pass through unchanged on every path. -/
theorem cmd_hnd_only {σ : Type} (T : Transport σ) (s : OpenedUsbDevice σ)
    (data : List Nat) (cap : Nat) :
    (s.cmd T data cap).2 = { s with hnd := (s.cmd T data cap).2.hnd } := by
  unfold OpenedUsbDevice.cmd
  split
  · rfl
  · split
    · rfl
    · split
      · rfl
      · rfl

/-- `cmd` leaves `reset_called` and `default_timeout` unchanged. -/
theorem cmd_frame {σ : Type} (T : Transport σ) (s : OpenedUsbDevice σ)
    (data : List Nat) (cap : Nat) :
    (s.cmd T data cap).2.reset_called = s.reset_called
      ∧ (s.cmd T data cap).2.default_timeout = s.default_timeout := by
  constructor <;> rw [cmd_hnd_only]

/-- `run_and_check` returns the session state produced by its inner `cmd`. -/
theorem run_and_check_snd {σ : Type} (T : Transport σ) (s : OpenedUsbDevice σ)
    (c : List Nat) (cap : Nat) :
    (s.run_and_check T c cap).2 = (s.cmd T c cap).2 := by
  unfold OpenedUsbDevice.run_and_check
  split
  · rename_i e s1 heq
    rw [heq]
  · rename_i res out s1 heq
    rw [heq]
    dsimp only
    split
    · rfl
    · split
      · rfl
      · split
        · rfl
        · rfl

/-- `run_and_check` leaves `reset_called` and `default_timeout` unchanged. -/
theorem run_and_check_frame {σ : Type} (T : Transport σ) (s : OpenedUsbDevice σ)
    (c : List Nat) (cap : Nat) :
    (s.run_and_check T c cap).2.reset_called = s.reset_called
      ∧ (s.run_and_check T c cap).2.default_timeout = s.default_timeout := by
  rw [run_and_check_snd]
  exact cmd_frame T s c cap

/-- `send_init` leaves `reset_called` and `default_timeout` unchanged. -/
theorem send_init_frame {σ : Type} (T : Transport σ) (s : OpenedUsbDevice σ) :
    (s.send_init T).2.reset_called = s.reset_called
      ∧ (s.send_init T).2.default_timeout = s.default_timeout := by
  unfold OpenedUsbDevice.send_init
  split
  · rename_i e s1 heq
    have h1 := run_and_check_frame T s [0x01] 1024
    rw [heq] at h1
    exact h1
  · rename_i n s1 heq
    have h1 := run_and_check_frame T s [0x01] 1024
    rw [heq] at h1
    have h2 := run_and_check_frame T s1 [0x19] 1024
    split
    · rename_i e s2 heq2
      rw [heq2] at h2
      exact ⟨h2.1.trans h1.1, h2.2.trans h1.2⟩
    · rename_i m s2 heq2
      rw [heq2] at h2
      exact ⟨h2.1.trans h1.1, h2.2.trans h1.2⟩

/-- `reset` leaves `default_timeout` unchanged. -/
theorem reset_timeout_frame {σ : Type} (T : Transport σ) (s : OpenedUsbDevice σ) :
    (s.reset T).2.default_timeout = s.default_timeout := by
  unfold OpenedUsbDevice.reset
  split
  · rfl
  · split
    · rfl
    · rfl

/-- C10: the command/response operations `cmd`, `run_and_check` and
`send_init` never modify the session's driver-visible state —
`reset_called` and `default_timeout` are unchanged whether they succeed or
fail; `reset` also leaves `default_timeout` unchanged. -/
theorem session_ops_frame {σ : Type} (T : Transport σ) (s : OpenedUsbDevice σ)
    (data c : List Nat) (cap cap2 : Nat) :
    ((s.cmd T data cap).2.reset_called = s.reset_called
      ∧ (s.cmd T data cap).2.default_timeout = s.default_timeout)
  ∧ ((s.run_and_check T c cap2).2.reset_called = s.reset_called
      ∧ (s.run_and_check T c cap2).2.default_timeout = s.default_timeout)
  ∧ ((s.send_init T).2.reset_called = s.reset_called
      ∧ (s.send_init T).2.default_timeout = s.default_timeout)
  ∧ (s.reset T).2.default_timeout = s.default_timeout :=
  ⟨cmd_frame T s data cap, run_and_check_frame T s c cap2, send_init_frame T s,
   reset_timeout_frame T s⟩

/-- Applying one session operation preserves a set `reset_called` flag. -/
theorem applyOp_mono {σ : Type} (T : Transport σ) (s : OpenedUsbDevice σ)
    (op : SessionOp) (h : s.reset_called = true) :
    (applyOp T s op).reset_called = true := by
  cases op with
  | cmdOp data cap =>
    rw [applyOp, (cmd_frame T s data cap).1]
    exact h
  | runOp c cap =>
    rw [applyOp, (run_and_check_frame T s c cap).1]
    exact h
  | initOp =>
    rw [applyOp, (send_init_frame T s).1]
    exact h
  | resetOp =>
    simp [applyOp, OpenedUsbDevice.reset, h]

/-- A set `reset_called` flag survives any sequence of session operations. -/
theorem applyOps_mono {σ : Type} (T : Transport σ) :
    ∀ (ops : List SessionOp) (s : OpenedUsbDevice σ), s.reset_called = true →
    (applyOps T s ops).reset_called = true := by
  intro ops
  induction ops with
  | nil => intro s h; exact h
  | cons op rest ih =>
    intro s h
    exact ih _ (applyOp_mono T s op h)

/-- C8: `reset_called` is monotone — it starts false at `open()`, and once
true no session operation (cmd, run_and_check, send_init, reset) ever makes
it false again. -/
theorem reset_called_monotone {σ : Type} (T : Transport σ) (h0 : σ) :
    (∀ s0 : OpenedUsbDevice σ, UsbDevice.open (Except.ok h0) = .ok s0 →
       s0.reset_called = false)
  ∧ (∀ (s : OpenedUsbDevice σ) (ops : List SessionOp), s.reset_called = true →
       (applyOps T s ops).reset_called = true) := by
  constructor
  · intro s0 h
    injection h with h'
    rw [← h']
  · intro s ops h
    exact applyOps_mono T ops s h

/-- Witness for C8: a freshly opened session has `reset_called = false`,
and a session with the flag set keeps it through a reset and an init. -/
theorem reset_called_monotone_witness :
    (⟨(), false, Duration.from_secs 1⟩ : OpenedUsbDevice Unit).reset_called = false
  ∧ (applyOps (okTransport []) ⟨(), true, Duration.from_secs 1⟩
       [SessionOp.resetOp, SessionOp.initOp]).reset_called = true :=
  ⟨(reset_called_monotone (okTransport []) ()).1 ⟨(), false, Duration.from_secs 1⟩ rfl,
   (reset_called_monotone (okTransport []) ()).2 ⟨(), true, Duration.from_secs 1⟩
     [SessionOp.resetOp, SessionOp.initOp] rfl⟩

/-- C3: `cmd` writes the request to outbound bulk endpoint 1 blocking up to
`default_timeout`; a reported write shorter than the request fails with
`UsbWritePartial` after exactly that one transport call (no read, no retry);
a full write is followed by one read from inbound bulk endpoint 129 blocking
up to `default_timeout`, returning the number of bytes actually read. -/
theorem cmd_spec {σ : Type} (T : Transport σ) (s : OpenedUsbDevice σ)
    (data : List Nat) (cap : Nat) (tr : List TransportEvent) :
    (∀ wrlen h1, T.write_bulk s.hnd 1 data s.default_timeout = (.ok wrlen, h1) →
        wrlen ≠ data.length →
        OpenedUsbDevice.cmd (traced T) (liftTraced s tr) data cap
          = (.error DriverError.UsbWritePartial,
             ⟨(h1, tr ++ [TransportEvent.write 1 data s.default_timeout]),
              s.reset_called, s.default_timeout⟩))
  ∧ (∀ h1 bytes h2, T.write_bulk s.hnd 1 data s.default_timeout = (.ok data.length, h1) →
        T.read_bulk h1 129 cap s.default_timeout = (.ok bytes, h2) →
        OpenedUsbDevice.cmd (traced T) (liftTraced s tr) data cap
          = (.ok (bytes.length, bytes),
             ⟨(h2, tr ++ [TransportEvent.write 1 data s.default_timeout,
                          TransportEvent.read 129 cap s.default_timeout]),
              s.reset_called, s.default_timeout⟩)) := by
  constructor
  · intro wrlen h1 hw hne
    have hbeq : (data.length == wrlen) = false := by
      simp [Ne.symm hne]
    simp only [OpenedUsbDevice.cmd, traced, liftTraced, hw, bne, hbeq,
      Bool.not_false, if_true]
  · intro h1 bytes h2 hw hr
    simp only [OpenedUsbDevice.cmd, traced, liftTraced, hw, hr, bne, beq_self_eq_true,
      Bool.not_true, Bool.false_eq_true, if_false, List.append_assoc, List.cons_append,
      List.nil_append]

/-- Witness for C3: a transport reporting 0 bytes written makes `cmd` fail
with `UsbWritePartial` after a single write call on endpoint 1. -/
theorem cmd_spec_witness :
    OpenedUsbDevice.cmd (traced (shortWriteTransport 0))
        (liftTraced ⟨(), false, Duration.from_secs 1⟩ []) [1, 2] 8
      = (.error DriverError.UsbWritePartial,
         ⟨((), [TransportEvent.write 1 [1, 2] (Duration.from_secs 1)]),
          false, Duration.from_secs 1⟩) :=
  (cmd_spec (shortWriteTransport 0) ⟨(), false, Duration.from_secs 1⟩ [1, 2] 8 []).1
    0 () rfl (by decide)

/-- When the write is reported complete and the read succeeds,
`run_and_check` reduces to the status check over the bytes read. -/
theorem run_and_check_eq_of {σ : Type} (T : Transport σ) (s : OpenedUsbDevice σ)
    (c : List Nat) (cap : Nat) (h1 h2 : σ) (bytes : List Nat)
    (hw : T.write_bulk s.hnd 1 c s.default_timeout = (.ok c.length, h1))
    (hr : T.read_bulk h1 129 cap s.default_timeout = (.ok bytes, h2)) :
    OpenedUsbDevice.run_and_check T s c cap =
      ((if bytes.length < 2 then .error DriverError.UsbInitInvalid
        else
          let shrt := OpenedUsbDevice.u16_from_le_bytes (bytes.take 2)
          if shrt != 0 && shrt == 0x44f then
            .error (DriverError.UsbInitSignatureFailed shrt)
          else if shrt != 0 then .error (DriverError.UsbInitFailed shrt)
          else .ok bytes.length),
       { s with hnd := h2 }) := by
  have hcmd : OpenedUsbDevice.cmd T s c cap
      = (.ok (bytes.length, bytes), { s with hnd := h2 }) := by
    simp only [OpenedUsbDevice.cmd, hw, bne, beq_self_eq_true, Bool.not_true,
      Bool.false_eq_true, if_false, hr]
  simp only [OpenedUsbDevice.run_and_check, hcmd, List.take_length]
  split
  · rfl
  · split
    · rfl
    · split
      · rfl
      · rfl

/-- C4: a successful exchange that reads fewer than 2 bytes makes
`run_and_check` fail with `UsbInitInvalid`, regardless of the bytes. -/
theorem run_and_check_short {σ : Type} (T : Transport σ) (s : OpenedUsbDevice σ)
    (c : List Nat) (cap : Nat) (h1 h2 : σ) (bytes : List Nat)
    (hw : T.write_bulk s.hnd 1 c s.default_timeout = (.ok c.length, h1))
    (hr : T.read_bulk h1 129 cap s.default_timeout = (.ok bytes, h2))
    (hshort : bytes.length < 2) :
    (OpenedUsbDevice.run_and_check T s c cap).1
      = .error DriverError.UsbInitInvalid := by
  rw [run_and_check_eq_of T s c cap h1 h2 bytes hw hr]
  simp [hshort]

/-- Witness for C4: a one-byte response makes `run_and_check` fail with
`UsbInitInvalid`. -/
theorem run_and_check_short_witness :
    (OpenedUsbDevice.run_and_check (okTransport [5])
        ⟨(), false, Duration.from_secs 1⟩ [1] 8).1
      = .error DriverError.UsbInitInvalid :=
  run_and_check_short (okTransport [5]) ⟨(), false, Duration.from_secs 1⟩
    [1] 8 () () [5] rfl rfl (by decide)

/-- C5: with at least 2 response bytes, the first two bytes read as a
little-endian u16 status decide the outcome — 0 succeeds returning the
total bytes read, 0x044F fails with `UsbInitSignatureFailed` carrying the
code, any other nonzero status fails with `UsbInitFailed` carrying the
code; the bytes after the first two never affect the status check. -/
theorem run_and_check_status {σ : Type} (T : Transport σ) (s : OpenedUsbDevice σ)
    (c : List Nat) (cap : Nat) (h1 h2 : σ) (b0 b1 : Nat) (rest : List Nat)
    (hw : T.write_bulk s.hnd 1 c s.default_timeout = (.ok c.length, h1))
    (hr : T.read_bulk h1 129 cap s.default_timeout = (.ok (b0 :: b1 :: rest), h2))
    (hb0 : b0 < 256) (hb1 : b1 < 256) :
    (b0 + 256 * b1 = 0 →
       (OpenedUsbDevice.run_and_check T s c cap).1 = .ok (rest.length + 2))
  ∧ (b0 + 256 * b1 = 0x44f →
       (OpenedUsbDevice.run_and_check T s c cap).1
         = .error (DriverError.UsbInitSignatureFailed 0x44f))
  ∧ (b0 + 256 * b1 ≠ 0 → b0 + 256 * b1 ≠ 0x44f →
       (OpenedUsbDevice.run_and_check T s c cap).1
         = .error (DriverError.UsbInitFailed (b0 + 256 * b1))) := by
  have heq := run_and_check_eq_of T s c cap h1 h2 (b0 :: b1 :: rest) hw hr
  have hshrt : OpenedUsbDevice.u16_from_le_bytes (List.take 2 (b0 :: b1 :: rest))
      = b0 + 256 * b1 := by
    simp [OpenedUsbDevice.u16_from_le_bytes, Nat.mod_eq_of_lt hb0,
      Nat.mod_eq_of_lt hb1]
  have hlen : ¬ ((b0 :: b1 :: rest).length < 2) := by
    simp only [List.length_cons]
    omega
  refine ⟨?_, ?_, ?_⟩
  · intro hz
    have hsh0 : OpenedUsbDevice.u16_from_le_bytes (List.take 2 (b0 :: b1 :: rest)) = 0 :=
      hshrt.trans hz
    rw [heq]
    dsimp only
    rw [if_neg hlen, hsh0]
    simp
  · intro hsig
    have hsh : OpenedUsbDevice.u16_from_le_bytes (List.take 2 (b0 :: b1 :: rest)) = 0x44f :=
      hshrt.trans hsig
    rw [heq]
    dsimp only
    rw [if_neg hlen, hsh]
    rfl
  · intro hne0 hne44f
    have hc1 : (b0 + 256 * b1 == 0x44f) = false := by simp [hne44f]
    have hc0 : (b0 + 256 * b1 != 0) = true := by simp [bne, hne0]
    rw [heq]
    dsimp only
    rw [if_neg hlen, hshrt]
    simp only [hc0, hc1, Bool.and_false, Bool.false_eq_true, if_false, if_true]

/-- A status-0 exchange: full write, then a read whose first two bytes are
zero, makes `run_and_check` succeed with the total bytes read. -/
theorem run_and_check_ok_of {σ : Type} (T : Transport σ) (s : OpenedUsbDevice σ)
    (c : List Nat) (cap : Nat) (h1 h2 : σ) (t : List Nat)
    (hw : T.write_bulk s.hnd 1 c s.default_timeout = (.ok c.length, h1))
    (hr : T.read_bulk h1 129 cap s.default_timeout = (.ok (0 :: 0 :: t), h2)) :
    OpenedUsbDevice.run_and_check T s c cap
      = (.ok (t.length + 2), { s with hnd := h2 }) := by
  rw [run_and_check_eq_of T s c cap h1 h2 (0 :: 0 :: t) hw hr]
  dsimp only
  congr 1

/-- Witness for C5: response bytes `[0x4F, 0x04]` decode to status 0x044F
and yield `UsbInitSignatureFailed 0x044F`. -/
theorem run_and_check_status_witness :
    (OpenedUsbDevice.run_and_check (okTransport [0x4f, 0x04])
        ⟨(), false, Duration.from_secs 1⟩ [1] 1024).1
      = .error (DriverError.UsbInitSignatureFailed 0x44f) :=
  (run_and_check_status (okTransport [0x4f, 0x04]) ⟨(), false, Duration.from_secs 1⟩
      [1] 1024 () () 0x4f 0x04 [] rfl rfl (by decide) (by decide)).2.1 (by decide)

/-- C6: `send_init` issues the one-byte commands `[0x01]` then `[0x19]` in
that fixed order, each validated by `run_and_check` against a 1024-byte
response buffer; a failure of the first command propagates without the
second being issued, a failure of the second is the overall error, and when
both exchanges report status 0 the transport sees exactly the four calls
write `[0x01]`, read, write `[0x19]`, read, in that order. -/
theorem send_init_spec {σ : Type} (T : Transport σ) (s : OpenedUsbDevice σ)
    (tr : List TransportEvent) :
    (∀ e s1,
        OpenedUsbDevice.run_and_check (traced T) (liftTraced s tr) [0x01] 1024
          = (.error e, s1) →
        OpenedUsbDevice.send_init (traced T) (liftTraced s tr) = (.error e, s1))
  ∧ (∀ n s1,
        OpenedUsbDevice.run_and_check (traced T) (liftTraced s tr) [0x01] 1024
          = (.ok n, s1) →
        (∀ e s2,
           OpenedUsbDevice.run_and_check (traced T) s1 [0x19] 1024 = (.error e, s2) →
           OpenedUsbDevice.send_init (traced T) (liftTraced s tr) = (.error e, s2))
      ∧ (∀ m s2,
           OpenedUsbDevice.run_and_check (traced T) s1 [0x19] 1024 = (.ok m, s2) →
           OpenedUsbDevice.send_init (traced T) (liftTraced s tr) = (.ok (), s2)))
  ∧ (∀ (h1 h2 h3 h4 : σ) (t1 t2 : List Nat),
        T.write_bulk s.hnd 1 [0x01] s.default_timeout = (.ok 1, h1) →
        T.read_bulk h1 129 1024 s.default_timeout = (.ok (0 :: 0 :: t1), h2) →
        T.write_bulk h2 1 [0x19] s.default_timeout = (.ok 1, h3) →
        T.read_bulk h3 129 1024 s.default_timeout = (.ok (0 :: 0 :: t2), h4) →
        OpenedUsbDevice.send_init (traced T) (liftTraced s tr)
          = (.ok (),
             ⟨(h4, tr ++ [TransportEvent.write 1 [0x01] s.default_timeout,
                          TransportEvent.read 129 1024 s.default_timeout,
                          TransportEvent.write 1 [0x19] s.default_timeout,
                          TransportEvent.read 129 1024 s.default_timeout]),
              s.reset_called, s.default_timeout⟩)) := by
  refine ⟨?_, ?_, ?_⟩
  · intro e s1 h
    simp only [OpenedUsbDevice.send_init, h]
  · intro n s1 h
    constructor
    · intro e s2 h2
      simp only [OpenedUsbDevice.send_init, h, h2]
    · intro m s2 h2
      simp only [OpenedUsbDevice.send_init, h, h2]
  · intro h1 h2 h3 h4 t1 t2 hw1 hr1 hw2 hr2
    have hwt1 : (traced T).write_bulk (liftTraced s tr).hnd 1 [0x01]
        (liftTraced s tr).default_timeout
        = (.ok 1, (h1, tr ++ [TransportEvent.write 1 [0x01] s.default_timeout])) := by
      simp [traced, liftTraced, hw1]
    have hrt1 : (traced T).read_bulk
        (h1, tr ++ [TransportEvent.write 1 [0x01] s.default_timeout]) 129 1024
        (liftTraced s tr).default_timeout
        = (.ok (0 :: 0 :: t1),
           (h2, tr ++ [TransportEvent.write 1 [0x01] s.default_timeout,
                       TransportEvent.read 129 1024 s.default_timeout])) := by
      simp [traced, liftTraced, hr1]
    have hrun1 := run_and_check_ok_of (traced T) (liftTraced s tr) [0x01] 1024
      (h1, tr ++ [TransportEvent.write 1 [0x01] s.default_timeout])
      (h2, tr ++ [TransportEvent.write 1 [0x01] s.default_timeout,
                  TransportEvent.read 129 1024 s.default_timeout]) t1 hwt1 hrt1
    have hwt2 : (traced T).write_bulk
        (h2, tr ++ [TransportEvent.write 1 [0x01] s.default_timeout,
                    TransportEvent.read 129 1024 s.default_timeout]) 1 [0x19]
        s.default_timeout
        = (.ok 1, (h3, tr ++ [TransportEvent.write 1 [0x01] s.default_timeout,
                              TransportEvent.read 129 1024 s.default_timeout,
                              TransportEvent.write 1 [0x19] s.default_timeout])) := by
      simp [traced, hw2]
    have hrt2 : (traced T).read_bulk
        (h3, tr ++ [TransportEvent.write 1 [0x01] s.default_timeout,
                    TransportEvent.read 129 1024 s.default_timeout,
                    TransportEvent.write 1 [0x19] s.default_timeout]) 129 1024
        s.default_timeout
        = (.ok (0 :: 0 :: t2),
           (h4, tr ++ [TransportEvent.write 1 [0x01] s.default_timeout,
                       TransportEvent.read 129 1024 s.default_timeout,
                       TransportEvent.write 1 [0x19] s.default_timeout,
                       TransportEvent.read 129 1024 s.default_timeout])) := by
      simp [traced, hr2]
    have hrun2 := run_and_check_ok_of (traced T)
      ⟨(h2, tr ++ [TransportEvent.write 1 [0x01] s.default_timeout,
                   TransportEvent.read 129 1024 s.default_timeout]),
       s.reset_called, s.default_timeout⟩ [0x19] 1024
      (h3, tr ++ [TransportEvent.write 1 [0x01] s.default_timeout,
                  TransportEvent.read 129 1024 s.default_timeout,
                  TransportEvent.write 1 [0x19] s.default_timeout])
      (h4, tr ++ [TransportEvent.write 1 [0x01] s.default_timeout,
                  TransportEvent.read 129 1024 s.default_timeout,
                  TransportEvent.write 1 [0x19] s.default_timeout,
                  TransportEvent.read 129 1024 s.default_timeout]) t2 hwt2 hrt2
    simp only [OpenedUsbDevice.send_init, liftTraced] at hrun1 hrun2 ⊢
    simp only [hrun1, hrun2]

/-- Witness for C6: a transport scripting two status-0 responses makes
`send_init` succeed with the four expected transport calls in order. -/
theorem send_init_spec_witness :
    OpenedUsbDevice.send_init (traced (scriptTransport [[0, 0], [0, 0]]))
        (liftTraced ⟨0, false, Duration.from_secs 1⟩ [])
      = (.ok (),
         ⟨(2, [TransportEvent.write 1 [0x01] (Duration.from_secs 1),
               TransportEvent.read 129 1024 (Duration.from_secs 1),
               TransportEvent.write 1 [0x19] (Duration.from_secs 1),
               TransportEvent.read 129 1024 (Duration.from_secs 1)]),
          false, Duration.from_secs 1⟩) :=
  (send_init_spec (scriptTransport [[0, 0], [0, 0]])
      ⟨0, false, Duration.from_secs 1⟩ []).2.2 0 1 1 2 [] [] rfl rfl rfl rfl

/-- Reset calls recorded in a concatenated trace add up. -/
theorem countResets_append (a b : List TransportEvent) :
    countResets (a ++ b) = countResets a + countResets b := by
  simp [countResets, List.filter_append]

/-- Counterexample to C7 as stated: with a transport whose reset fails, two
successive `reset()` calls perform the underlying transport reset twice —
the first failure leaves `reset_called` false, so the second call retries. -/
theorem reset_twice_counterexample :
    ¬ (countResets ((applyOps (traced failResetTransport)
          (liftTraced ⟨(), false, Duration.from_secs 1⟩ [])
          [SessionOp.resetOp, SessionOp.resetOp]).hnd.2)
        ≤ countResets ([] : List TransportEvent) + 1) := by
  decide

/-- C7 (amended): `reset` is a no-op success without any transport call when
`reset_called` is already true; otherwise it invokes the transport reset
exactly once, setting `reset_called` on success and returning `UsbReset`
with the flag still false on failure; and two successive `reset()` calls
whose first call succeeds perform the underlying transport reset at most
once (after a failed first call the second call retries, as §4.4 allows). -/
theorem reset_spec {σ : Type} (T : Transport σ) (s : OpenedUsbDevice σ)
    (tr : List TransportEvent) :
    (s.reset_called = true →
       OpenedUsbDevice.reset (traced T) (liftTraced s tr) = (.ok (), liftTraced s tr))
  ∧ (s.reset_called = false →
       (∀ h1, T.reset s.hnd = (.ok (), h1) →
          OpenedUsbDevice.reset (traced T) (liftTraced s tr)
            = (.ok (), ⟨(h1, tr ++ [TransportEvent.reset]), true, s.default_timeout⟩))
     ∧ (∀ e h1, T.reset s.hnd = (.error e, h1) →
          OpenedUsbDevice.reset (traced T) (liftTraced s tr)
            = (.error (DriverError.UsbReset e),
               ⟨(h1, tr ++ [TransportEvent.reset]), false, s.default_timeout⟩)))
  ∧ ((OpenedUsbDevice.reset (traced T) (liftTraced s tr)).1 = .ok () →
       countResets ((applyOps (traced T) (liftTraced s tr)
           [SessionOp.resetOp, SessionOp.resetOp]).hnd.2)
         ≤ countResets tr + 1) := by
  refine ⟨?_, ?_, ?_⟩
  · intro h
    simp [OpenedUsbDevice.reset, liftTraced, h]
  · intro h
    constructor
    · intro h1 hok
      simp [OpenedUsbDevice.reset, traced, liftTraced, h, hok]
    · intro e h1 herr
      simp [OpenedUsbDevice.reset, traced, liftTraced, h, herr]
  · intro hsucc
    cases hrc : s.reset_called with
    | true =>
      have h1 : OpenedUsbDevice.reset (traced T) (liftTraced s tr)
          = (.ok (), liftTraced s tr) := by
        simp [OpenedUsbDevice.reset, liftTraced, hrc]
      simp only [applyOps, applyOp, h1]
      simp [liftTraced]
    | false =>
      rcases hres : T.reset s.hnd with ⟨r, h1⟩
      cases r with
      | ok u =>
        have hstep : OpenedUsbDevice.reset (traced T) (liftTraced s tr)
            = (.ok (), ⟨(h1, tr ++ [TransportEvent.reset]), true, s.default_timeout⟩) := by
          cases u
          simp [OpenedUsbDevice.reset, traced, liftTraced, hrc, hres]
        have hstep2 : OpenedUsbDevice.reset (traced T)
            (⟨(h1, tr ++ [TransportEvent.reset]), true, s.default_timeout⟩ :
              OpenedUsbDevice (σ × List TransportEvent))
            = (.ok (), ⟨(h1, tr ++ [TransportEvent.reset]), true, s.default_timeout⟩) := by
          simp [OpenedUsbDevice.reset]
        simp [applyOps, applyOp, hstep, hstep2, countResets_append, countResets]
      | error e =>
        have hstep : (OpenedUsbDevice.reset (traced T) (liftTraced s tr)).1
            = .error (DriverError.UsbReset e) := by
          simp [OpenedUsbDevice.reset, traced, liftTraced, hrc, hres]
        rw [hstep] at hsucc
        cases hsucc

/-- Witness for C7: an already-reset session makes `reset` a no-op success
with no transport call recorded. -/
theorem reset_spec_witness :
    OpenedUsbDevice.reset (traced (okTransport []))
        (liftTraced ⟨(), true, Duration.from_secs 1⟩ [])
      = (.ok (), liftTraced ⟨(), true, Duration.from_secs 1⟩ []) :=
  (reset_spec (okTransport []) ⟨(), true, Duration.from_secs 1⟩ []).1 rfl

/-- C9: destroying a session attempts `reset()` exactly once before the
connection resource is released — a never-reset session records exactly one
transport reset during teardown and releases the post-reset world, an
already-reset session records none, and a failing teardown reset aborts the
program instead of completing the destruction. -/
theorem drop_spec {σ : Type} (T : Transport σ) (s : OpenedUsbDevice σ)
    (tr : List TransportEvent) :
    (s.reset_called = true →
       OpenedUsbDevice.drop (traced T) (liftTraced s tr) = .released (s.hnd, tr))
  ∧ (s.reset_called = false →
       (∀ h1, T.reset s.hnd = (.ok (), h1) →
          OpenedUsbDevice.drop (traced T) (liftTraced s tr)
            = .released (h1, tr ++ [TransportEvent.reset]))
     ∧ (∀ e h1, T.reset s.hnd = (.error e, h1) →
          OpenedUsbDevice.drop (traced T) (liftTraced s tr) = DropResult.panicked)) := by
  refine ⟨?_, ?_⟩
  · intro h
    simp [OpenedUsbDevice.drop, OpenedUsbDevice.reset, liftTraced, h]
  · intro h
    constructor
    · intro h1 hok
      simp [OpenedUsbDevice.drop, OpenedUsbDevice.reset, traced, liftTraced, h, hok]
    · intro e h1 herr
      simp [OpenedUsbDevice.drop, OpenedUsbDevice.reset, traced, liftTraced, h, herr]

/-- Witness for C9: dropping a never-reset session over a healthy transport
records exactly one reset and releases the post-reset world. -/
theorem drop_spec_witness :
    OpenedUsbDevice.drop (traced (okTransport []))
        (liftTraced ⟨(), false, Duration.from_secs 1⟩ [])
      = .released ((), [TransportEvent.reset]) :=
  ((drop_spec (okTransport []) ⟨(), false, Duration.from_secs 1⟩ []).2 rfl).1 () rfl

end ValiditySens
